import Mathlib

/-!
Verification of the SGMessaging core against its specification.

Shallow embedding conventions:
* `FName` and `FString` are modelled as lists of character code points (`List Nat`).
* `FSGMessageAddress` (an opaque 128-bit GUID) is modelled as `Nat`; equality is identity.
* `FDateTime` is modelled as its tick count, a `Nat`; the default-constructed value is `0`
  ticks and the distinguished "never" expiration is `FDateTime::MaxValue`.
* Pointers (`void*` payloads, `TSharedPtr` attachments, `TWeakObjectPtr` type info) are
  modelled as `Option Nat`: `none` is the null pointer, `some p` a concrete pointer value,
  so equality of the `Option` values is pointer identity.
* `ESGMessageFlags` is a bitset over `{Reliable = 1, Guaranteed = 2}`, modelled as `Nat`.
-/

/-- `FDateTime::MaxValue()` in ticks (`3652059` days of `864 * 10^9` ticks, minus one):
the distinguished "never" expiration value. -/
def FDateTimeMaxValue : Nat := 3652059 * 864000000000 - 1

/-- `ESGMessageScope` from `ISGMessageContext.h` (declared there; the header is not part of
the sources, so the enumerators are modelled from the spec: `Thread`, `Process`, `Network`,
`All`, in that order). -/
inductive ESGMessageScope where
  | Thread
  | Process
  | Network
  | All
deriving DecidableEq

/-- The underlying enumerator value of a scope, giving the spec's implied ordering. -/
def ESGMessageScope.toNat : ESGMessageScope → Nat
  | .Thread => 0
  | .Process => 1
  | .Network => 2
  | .All => 3

/-- The spec's ordering on scopes: `a ≤ b` iff the enumerator of `a` is at most that of `b`. -/
def scopeLe (a b : ESGMessageScope) : Prop := a.toNat ≤ b.toNat

instance (a b : ESGMessageScope) : Decidable (scopeLe a b) := by
  unfold scopeLe; infer_instance

/-- `ESGMessageFlags::None`: the empty bitset. -/
def flagsNone : Nat := 0

/-- `ENamedThreads::Type`: either the wildcard `AnyThread` or a concrete named thread,
modelled by an opaque index. -/
inductive ENamedThread where
  | AnyThread
  | Named (idx : Nat)
deriving DecidableEq

/-- The data members of `FSGMessageContext` (SGMessageContext.h, lines 149-188), except
`OriginalContext`, which is carried by the inductive wrapper `FSGMessageContext` so that
forwarding chains are represented structurally. -/
structure ContextFields where
  /-- `Annotations : TMap<FName, FString>`; default-constructed is the empty map. -/
  Annots : List (List Nat × List Nat)
  /-- `Attachment : TSharedPtr<ISGMessageAttachment>`; default-constructed is null. -/
  Attachment : Option Nat
  /-- `Expiration : FDateTime`; default-constructed is 0 ticks. -/
  Expiration : Nat
  /-- `MessageTag : FName`; default-constructed is `NAME_None`, modelled as the empty list. -/
  MessageTag : List Nat
  /-- `Message : void*`. -/
  Message : Option Nat
  /-- `Recipients : TArray<FSGMessageAddress>`. -/
  Recipients : List Nat
  /-- `Scope : ESGMessageScope`. -/
  Scope : ESGMessageScope
  /-- `Flags : ESGMessageFlags`. -/
  Flags : Nat
  /-- `Sender : FSGMessageAddress`. -/
  Sender : Nat
  /-- `SenderThread : ENamedThreads::Type`. -/
  SenderThread : ENamedThread
  /-- `TimeSent : FDateTime`. -/
  TimeSent : Nat
  /-- `TypeInfo : TWeakObjectPtr<UScriptStruct>`; default-constructed is null. -/
  TypeInfo : Option Nat
deriving DecidableEq

/-- `FSGMessageContext`: `base` is a context whose `OriginalContext` member is null,
`forwarded` one whose `OriginalContext` member points at `original`. -/
inductive FSGMessageContext where
  | base (f : ContextFields)
  | forwarded (f : ContextFields) (original : FSGMessageContext)
deriving DecidableEq

/-- The data members of a context. -/
def FSGMessageContext.fields : FSGMessageContext → ContextFields
  | .base f => f
  | .forwarded f _ => f

/-- The `OriginalContext` member: null for a base context. -/
def FSGMessageContext.OriginalContext : FSGMessageContext → Option FSGMessageContext
  | .base _ => none
  | .forwarded _ o => some o

/-- The untagged originating constructor (SGMessageContext.h, lines 44-68): every member is
initialized from the matching argument; `MessageTag` and `OriginalContext` keep their
defaults (`NAME_None`, null). -/
def mkOriginating (msg : Option Nat) (typeInfo : Option Nat)
    (annots : List (List Nat × List Nat)) (attachment : Option Nat)
    (sender : Nat) (recipients : List Nat) (scope : ESGMessageScope) (flags : Nat)
    (timeSent : Nat) (expiration : Nat) (senderThread : ENamedThread) :
    FSGMessageContext :=
  .base {
    Annots := annots
    Attachment := attachment
    Expiration := expiration
    MessageTag := []
    Message := msg
    Recipients := recipients
    Scope := scope
    Flags := flags
    Sender := sender
    SenderThread := senderThread
    TimeSent := timeSent
    TypeInfo := typeInfo }

/-- The tagged originating constructor (SGMessageContext.h, lines 70-94): like the untagged
one but taking `InMessageTag` in place of `InTypeInfo`; its initializer list sets
`MessageTag(InMessageTag)` and still sets `TimeSent(InTimeSent)`, while `TypeInfo` keeps
its default (null). -/
def mkTagged (tag : List Nat) (msg : Option Nat)
    (annots : List (List Nat × List Nat)) (attachment : Option Nat)
    (sender : Nat) (recipients : List Nat) (scope : ESGMessageScope) (flags : Nat)
    (timeSent : Nat) (expiration : Nat) (senderThread : ENamedThread) :
    FSGMessageContext :=
  .base {
    Annots := annots
    Attachment := attachment
    Expiration := expiration
    MessageTag := tag
    Message := msg
    Recipients := recipients
    Scope := scope
    Flags := flags
    Sender := sender
    SenderThread := senderThread
    TimeSent := timeSent
    TypeInfo := none }

/-- The forwarding constructor (SGMessageContext.h, lines 108-124): its initializer list is
`Message(nullptr)`, `OriginalContext(InContext)`, `Recipients(NewRecipients)`,
`Scope(NewScope)`, `Flags(ESGMessageFlags::None)`, `Sender(InForwarder)`,
`SenderThread(InForwarderThread)`, `TimeSent(InTimeForwarded)`; all other members keep
their defaults (empty `Annotations`, null `Attachment`, zero `Expiration`, `NAME_None`
tag, null `TypeInfo`). -/
def mkForwarding (ctx : FSGMessageContext) (forwarder : Nat) (newRecipients : List Nat)
    (newScope : ESGMessageScope) (timeForwarded : Nat) (forwarderThread : ENamedThread) :
    FSGMessageContext :=
  .forwarded {
    Annots := []
    Attachment := none
    Expiration := 0
    MessageTag := []
    Message := none
    Recipients := newRecipients
    Scope := newScope
    Flags := flagsNone
    Sender := forwarder
    SenderThread := forwarderThread
    TimeSent := timeForwarded
    TypeInfo := none } ctx

/-- Modelled from the spec: the accessor bodies live in `SGMessageContext.cpp`, which is not
among the sources (the header only declares them). The spec states that for a forwarded
context the "payload pointer aliases original payload (no copy)", so `GetMessage` delegates
to the original context when one is present and otherwise returns the `Message` member. -/
def FSGMessageContext.GetMessage : FSGMessageContext → Option Nat
  | .base f => f.Message
  | .forwarded _ o => o.GetMessage

/-- Modelled from the spec: `GetFlags` is implemented in the missing `SGMessageContext.cpp`.
The spec states that "flags are preserved on the context" and that a forwarded context
carries its original's flags, so `GetFlags` delegates to the original context when one is
present and otherwise returns the `Flags` member. -/
def FSGMessageContext.GetFlags : FSGMessageContext → Nat
  | .base f => f.Flags
  | .forwarded _ o => o.GetFlags

/-- `GetOriginalContext` (declared in the header, body in the missing cpp): returns the
`OriginalContext` member. -/
def FSGMessageContext.GetOriginalContext (c : FSGMessageContext) :
    Option FSGMessageContext :=
  c.OriginalContext

/-- Modelled from the spec: `FSGMessageEndpoint` (SGMessageEndpoint.h is not among the
sources). The spec says an endpoint "owns its address, a handler registry, an optional
inbox, ... an enabled flag, and a recipient-thread selector"; only the members the claims
touch are modelled. Handlers are opaque identifiers. -/
structure FSGMessageEndpoint where
  Address : Nat
  Name : List Nat
  Handlers : List Nat
  Enabled : Bool
  InboxEnabled : Bool
  RecipientThread : ENamedThread
deriving DecidableEq

/-- Modelled from the spec: the `FSGMessageEndpoint` constructor generates a fresh address
at creation ("a process-unique 128-bit identifier generated at endpoint creation"); the
generated address is passed in as `freshAddr`. The endpoint starts enabled, with the inbox
disabled; `Build` overwrites the recipient thread on every path, so its initial value is
immaterial and is taken to be `AnyThread`. -/
def mkEndpoint (freshAddr : Nat) (name : List Nat) (handlers : List Nat) :
    FSGMessageEndpoint :=
  { Address := freshAddr
    Name := name
    Handlers := handlers
    Enabled := true
    InboxEnabled := false
    RecipientThread := .AnyThread }

/-- Modelled from the spec: `SetRecipientThread(thread)` "selects the thread on which the
router posts deliveries". -/
def FSGMessageEndpoint.SetRecipientThread (e : FSGMessageEndpoint) (t : ENamedThread) :
    FSGMessageEndpoint :=
  { e with RecipientThread := t }

/-- Modelled from the spec: `EnableInbox()` enables the endpoint's message inbox. -/
def FSGMessageEndpoint.EnableInbox (e : FSGMessageEndpoint) : FSGMessageEndpoint :=
  { e with InboxEnabled := true }

/-- Modelled from the spec: `Disable()` disables the endpoint without unregistering it. -/
def FSGMessageEndpoint.Disable (e : FSGMessageEndpoint) : FSGMessageEndpoint :=
  { e with Enabled := false }

/-- Modelled from the spec: the bus-side state the builder touches — the recipient table
("address → weak endpoint", modelled as the list of registered addresses, weak so only the
address identity is recorded) and the notification listener set. -/
structure BusState where
  registered : List Nat
  listeners : List Nat
deriving DecidableEq

/-- Modelled from the spec: `ISGMessageBus::Register(address, endpoint)` adds the address
to the bus's recipient table. -/
def BusState.Register (bus : BusState) (addr : Nat) : BusState :=
  { bus with registered := bus.registered ++ [addr] }

/-- Modelled from the spec: `ISGMessageBus::AddNotificationListener(endpoint)` adds the
endpoint to the notification listener set. -/
def BusState.AddNotificationListener (bus : BusState) (addr : Nat) : BusState :=
  { bus with listeners := bus.listeners ++ [addr] }

/-- The data members of `FSGMessageEndpointBuilder` (SGMessageEndpointBuilder.h, lines
283-305), except `BusPtr`: the weak pointer's pin outcome is supplied to `Build` directly
(`none` when the bus has been destroyed). `OnBound` models whether the `OnNotification`
delegate `IsBound()`. -/
structure FSGMessageEndpointBuilder where
  Disabled : Bool
  OnBound : Bool
  Handlers : List Nat
  InboxEnabled : Bool
  Name : List Nat
  RecipientThread : ENamedThread
deriving DecidableEq

/-- The builder constructor (SGMessageEndpointBuilder.h, lines 43-49): `Disabled` and
`InboxEnabled` start false, no handlers, no bound delegate, and the recipient thread is
the current thread at construction time, supplied as `currentThread`. -/
def mkBuilder (name : List Nat) (currentThread : ENamedThread) :
    FSGMessageEndpointBuilder :=
  { Disabled := false
    OnBound := false
    Handlers := []
    InboxEnabled := false
    Name := name
    RecipientThread := currentThread }

/-- `ReceivingOnAnyThread()` (lines 119-124): sets `RecipientThread` to `AnyThread`. -/
def FSGMessageEndpointBuilder.ReceivingOnAnyThread (b : FSGMessageEndpointBuilder) :
    FSGMessageEndpointBuilder :=
  { b with RecipientThread := .AnyThread }

/-- `ReceivingOnThread(NamedThread)` (lines 138-143): sets `RecipientThread`. -/
def FSGMessageEndpointBuilder.ReceivingOnThread (b : FSGMessageEndpointBuilder)
    (t : ENamedThread) : FSGMessageEndpointBuilder :=
  { b with RecipientThread := t }

/-- `ThatIsDisabled()` (lines 150-155): sets `Disabled`. -/
def FSGMessageEndpointBuilder.ThatIsDisabled (b : FSGMessageEndpointBuilder) :
    FSGMessageEndpointBuilder :=
  { b with Disabled := true }

/-- `WithInbox()` (lines 225-230): sets `InboxEnabled`. -/
def FSGMessageEndpointBuilder.WithInbox (b : FSGMessageEndpointBuilder) :
    FSGMessageEndpointBuilder :=
  { b with InboxEnabled := true }

/-- `WithHandler(handler)` (lines 211-216): appends a handler. -/
def FSGMessageEndpointBuilder.WithHandler (b : FSGMessageEndpointBuilder) (h : Nat) :
    FSGMessageEndpointBuilder :=
  { b with Handlers := b.Handlers ++ [h] }

/-- `Build()` (SGMessageEndpointBuilder.h, lines 239-271). `pin` is the outcome of
`BusPtr.Pin()`: `none` when the bus has been destroyed, in which case the local `Endpoint`
stays null and is returned. Otherwise the endpoint is created (generating the fresh
address `freshAddr`), registered with the bus, added as a notification listener when the
delegate is bound, disabled when requested, and its recipient thread set: to `AnyThread`
after `EnableInbox()` when the inbox was requested, else to the builder's
`RecipientThread`. Returns the endpoint and the bus state it mutated. -/
def FSGMessageEndpointBuilder.Build (b : FSGMessageEndpointBuilder)
    (pin : Option BusState) (freshAddr : Nat) :
    Option FSGMessageEndpoint × Option BusState :=
  match pin with
  | none => (none, none)
  | some bus =>
    let e := mkEndpoint freshAddr b.Name b.Handlers
    let bus := bus.Register e.Address
    let bus := if b.OnBound then bus.AddNotificationListener e.Address else bus
    let e := if b.Disabled then e.Disable else e
    let e := if b.InboxEnabled then e.EnableInbox.SetRecipientThread .AnyThread
             else e.SetRecipientThread b.RecipientThread
    (some e, some bus)

/-- `FString::AppendInt`, the engine routine behind
`UKismetStringLibrary::Conv_IntToString` for a nonnegative value: emits the decimal digits
of `n` most significant first, by repeated division by 10 (the code point of digit `d` is
`48 + d`). -/
def natCodes (n : Nat) : List Nat :=
  if h : n < 10 then [48 + n]
  else natCodes (n / 10) ++ [48 + n % 10]
termination_by n
decreasing_by exact Nat.div_lt_self (by omega) (by omega)

/-- `UKismetStringLibrary::Conv_IntToString` (i.e. `FString::FromInt`): a minus sign
(code point 45) followed by the digits of the absolute value when negative, else the
digits of the value. -/
def convIntToString (i : Int) : List Nat :=
  if i < 0 then 45 :: natCodes i.natAbs else natCodes i.toNat

/-- `FSGMessageTagBuilder::Builder` (SGMessageTagBuilder.h, lines 25-32): the `FName` built
from `Conv_IntToString(InTopicID) + ":" + Conv_IntToString(InMessageID)` (`:` is code
point 58). `FName` comparison is case-insensitive, but these strings contain only digits,
`-` and `:`, which have no case, so list equality models `FName` equality exactly. -/
def FSGMessageTagBuilder.Builder (topicID messageID : Int) : List Nat :=
  convIntToString topicID ++ 58 :: convIntToString messageID

/-- The spec's canonical decimal rendering of a nonnegative integer, written from the
spec's words using Mathlib's base-10 digit expansion: the digits of `n` in base 10, most
significant first, each mapped to its code point (`"0"` for zero). -/
def specNatDecimal (n : Nat) : List Nat :=
  if n = 0 then [48] else ((Nat.digits 10 n).map (fun d => 48 + d)).reverse

/-- The spec's decimal rendering of a possibly negative integer. -/
def specIntDecimal (i : Int) : List Nat :=
  if i < 0 then 45 :: specNatDecimal i.natAbs else specNatDecimal i.toNat

/-- The spec's canonical string form of a tag, `"<topic>:<message>"`, written from the
spec's words. -/
def specCanonicalTag (topic message : Int) : List Nat :=
  specIntDecimal topic ++ 58 :: specIntDecimal message

/-- Split a code-point list at its first `:` (code point 58), dropping the colon. -/
def splitAtColon : List Nat → List Nat × List Nat
  | [] => ([], [])
  | c :: rest =>
    if c = 58 then ([], rest)
    else
      let p := splitAtColon rest
      (c :: p.1, p.2)

/-- Parse a list of decimal digit code points as a natural number. -/
def parseNatCodes (l : List Nat) : Nat :=
  l.foldl (fun a c => a * 10 + (c - 48)) 0

/-- Parse a rendered integer: a leading `-` (code point 45) negates the digit parse. -/
def parseIntCodes (l : List Nat) : Int :=
  if l.head? = some 45 then -(parseNatCodes l.tail : Int) else (parseNatCodes l : Int)

/-- Decode a rendered tag back into its topic and message components. -/
def decodeTag (l : List Nat) : Int × Int :=
  (parseIntCodes (splitAtColon l).1, parseIntCodes (splitAtColon l).2)

/-- C1: a forwarding-constructed context aliases its original's payload pointer (its
`GetMessage` is pointer-identical to the original's) and its `GetOriginalContext` returns
the original context. -/
theorem forwarded_context_aliases_payload_and_original (O : FSGMessageContext)
    (fwd : Nat) (recips : List Nat) (s : ESGMessageScope) (t : Nat) (th : ENamedThread) :
    (mkForwarding O fwd recips s t th).GetMessage = O.GetMessage ∧
    (mkForwarding O fwd recips s t th).GetOriginalContext = some O :=
  ⟨rfl, rfl⟩

/-- C4 counterexample: forwarding a context whose scope is `Thread` with requested new
scope `All` yields a context whose scope is `All`, which is not `≤ Thread` — the
forwarding constructor performs no clamping, refuting scope monotonicity as claimed. -/
theorem forward_scope_widens_cex :
    (mkForwarding
        (mkOriginating (some 1) (some 1) [] none 1 [2] ESGMessageScope.Thread flagsNone
          0 0 ENamedThread.AnyThread)
        3 [] ESGMessageScope.All 0 ENamedThread.AnyThread).fields.Scope
      = ESGMessageScope.All ∧
    ¬ scopeLe
        (mkForwarding
          (mkOriginating (some 1) (some 1) [] none 1 [2] ESGMessageScope.Thread flagsNone
            0 0 ENamedThread.AnyThread)
          3 [] ESGMessageScope.All 0 ENamedThread.AnyThread).fields.Scope
        (mkOriginating (some 1) (some 1) [] none 1 [2] ESGMessageScope.Thread flagsNone
          0 0 ENamedThread.AnyThread).fields.Scope := by
  decide

/-- C4 amended: the forwarding constructor stores the requested new scope unchanged —
`Scope(F) = NewScope` for every original context and every requested scope; no clamping to
the original's scope occurs at construction. -/
theorem forward_scope_is_requested_scope (ctx : FSGMessageContext) (fwd : Nat)
    (recips : List Nat) (s : ESGMessageScope) (t : Nat) (th : ENamedThread) :
    (mkForwarding ctx fwd recips s t th).fields.Scope = s :=
  rfl

/-- C5 counterexample: the untagged originating constructor accepts `TimeSent = 5` and
`Expiration = 3`; the resulting context has `TimeSent > Expiration` and its expiration is
not the distinguished "never" value, so the claimed invariant fails on a context reachable
through a public constructor. -/
theorem timeSent_after_expiration_cex :
    ¬ ((mkOriginating (some 1) (some 1) [] none 1 [2] ESGMessageScope.Process flagsNone
          5 3 ENamedThread.AnyThread).fields.TimeSent ≤
        (mkOriginating (some 1) (some 1) [] none 1 [2] ESGMessageScope.Process flagsNone
          5 3 ENamedThread.AnyThread).fields.Expiration ∨
       (mkOriginating (some 1) (some 1) [] none 1 [2] ESGMessageScope.Process flagsNone
          5 3 ENamedThread.AnyThread).fields.Expiration = FDateTimeMaxValue) := by
  decide

/-- C5 amended: the originating constructors store the supplied `TimeSent` and
`Expiration` unchanged and enforce no ordering between them, so `TimeSent ≤ Expiration`
is not an invariant established at construction (any validation happens elsewhere, on the
emission path). -/
theorem ctor_stores_times_unchanged (msg typeInfo : Option Nat)
    (annots : List (List Nat × List Nat)) (att : Option Nat) (tag : List Nat)
    (sender : Nat) (recipients : List Nat) (scope : ESGMessageScope) (flags : Nat)
    (timeSent expiration : Nat) (senderThread : ENamedThread) :
    (mkOriginating msg typeInfo annots att sender recipients scope flags timeSent
        expiration senderThread).fields.TimeSent = timeSent ∧
    (mkOriginating msg typeInfo annots att sender recipients scope flags timeSent
        expiration senderThread).fields.Expiration = expiration ∧
    (mkTagged tag msg annots att sender recipients scope flags timeSent
        expiration senderThread).fields.TimeSent = timeSent ∧
    (mkTagged tag msg annots att sender recipients scope flags timeSent
        expiration senderThread).fields.Expiration = expiration :=
  ⟨rfl, rfl, rfl, rfl⟩

/-- C8: the flags supplied at emission are preserved on every context representing the
message — both originating constructors store the supplied flags and report them through
`GetFlags`, and a forwarding-constructed context's `GetFlags` equals its original's. -/
theorem flags_preserved_on_contexts (msg typeInfo : Option Nat)
    (annots : List (List Nat × List Nat)) (att : Option Nat) (tag : List Nat)
    (sender : Nat) (recipients : List Nat) (scope : ESGMessageScope) (flags : Nat)
    (timeSent expiration : Nat) (senderThread : ENamedThread)
    (ctx : FSGMessageContext) (fwd : Nat) (recips2 : List Nat) (s2 : ESGMessageScope)
    (t2 : Nat) (th2 : ENamedThread) :
    (mkOriginating msg typeInfo annots att sender recipients scope flags timeSent
        expiration senderThread).GetFlags = flags ∧
    (mkTagged tag msg annots att sender recipients scope flags timeSent
        expiration senderThread).GetFlags = flags ∧
    (mkForwarding ctx fwd recips2 s2 t2 th2).GetFlags = ctx.GetFlags :=
  ⟨rfl, rfl, rfl⟩

/-- C9 counterexample: the tagged originating constructor does take its `TimeSent` from
the supplied send-time argument — two constructions differing only in that argument yield
contexts whose `TimeSent` fields equal the respective arguments. -/
theorem tagged_ctor_sets_timeSent_cex :
    (mkTagged [49] (some 1) [] none 1 [] ESGMessageScope.Process flagsNone
        7 9 ENamedThread.AnyThread).fields.TimeSent = 7 ∧
    (mkTagged [49] (some 1) [] none 1 [] ESGMessageScope.Process flagsNone
        8 9 ENamedThread.AnyThread).fields.TimeSent = 8 := by
  decide

/-- C9 amended: the tagged originating overload sets `TimeSent` from the supplied
send-time argument just like the untagged overload; the member its initializer list omits
is `TypeInfo`, which keeps its default null value. -/
theorem tagged_ctor_timeSent_from_argument (tag : List Nat) (msg : Option Nat)
    (annots : List (List Nat × List Nat)) (att : Option Nat)
    (sender : Nat) (recipients : List Nat) (scope : ESGMessageScope) (flags : Nat)
    (timeSent expiration : Nat) (senderThread : ENamedThread) :
    (mkTagged tag msg annots att sender recipients scope flags timeSent
        expiration senderThread).fields.TimeSent = timeSent ∧
    (mkTagged tag msg annots att sender recipients scope flags timeSent
        expiration senderThread).fields.TypeInfo = none :=
  ⟨rfl, rfl⟩

/-- C10: a forwarding-constructed context's own members are the defaults — empty
`Annotations` map, null `Attachment`, and `ESGMessageFlags::None` — none of the original
context's annotations, attachment, or flags are copied into the new object. -/
theorem forwarded_context_own_fields_are_defaults (ctx : FSGMessageContext) (fwd : Nat)
    (recips : List Nat) (s : ESGMessageScope) (t : Nat) (th : ENamedThread) :
    (mkForwarding ctx fwd recips s t th).fields.Annots = [] ∧
    (mkForwarding ctx fwd recips s t th).fields.Attachment = none ∧
    (mkForwarding ctx fwd recips s t th).fields.Flags = flagsNone :=
  ⟨rfl, rfl, rfl⟩

/-- C2: `Build()` returns a null endpoint exactly when the bus weak pointer no longer
pins (the bus has been destroyed); whenever the bus is alive it returns a non-null
endpoint whose address has been registered with the bus. -/
theorem build_null_iff_bus_destroyed (b : FSGMessageEndpointBuilder) (freshAddr : Nat) :
    (b.Build none freshAddr).1 = none ∧
    ∀ bus : BusState, ∃ e : FSGMessageEndpoint, ∃ bus2 : BusState,
      b.Build (some bus) freshAddr = (some e, some bus2) ∧
      e.Address ∈ bus2.registered := by
  refine ⟨rfl, fun bus => ⟨_, _, rfl, ?_⟩⟩
  cases hOn : b.OnBound <;> cases hDis : b.Disabled <;> cases hInb : b.InboxEnabled <;>
    simp [hOn, hDis, hInb, mkEndpoint, BusState.Register,
      BusState.AddNotificationListener, FSGMessageEndpoint.Disable,
      FSGMessageEndpoint.EnableInbox, FSGMessageEndpoint.SetRecipientThread]

/-- C3: whenever the builder's inbox was enabled (`WithInbox()` was called), the endpoint
returned by `Build()` has recipient thread `AnyThread`, regardless of the builder's
`RecipientThread` setting from any earlier `ReceivingOnThread` or `ReceivingOnAnyThread`
call. -/
theorem inbox_forces_anyThread (b : FSGMessageEndpointBuilder) (bus : BusState)
    (freshAddr : Nat) (h : b.InboxEnabled = true) :
    ∃ e : FSGMessageEndpoint, ∃ bus2 : BusState,
      b.Build (some bus) freshAddr = (some e, some bus2) ∧
      e.RecipientThread = ENamedThread.AnyThread := by
  refine ⟨_, _, rfl, ?_⟩
  cases hOn : b.OnBound <;> cases hDis : b.Disabled <;>
    simp [h, hOn, hDis, mkEndpoint, FSGMessageEndpoint.Disable,
      FSGMessageEndpoint.EnableInbox, FSGMessageEndpoint.SetRecipientThread]

/-- Witness for C3: a builder that first selects a named recipient thread and then calls
`WithInbox()` satisfies the hypothesis, and building it against a live bus yields an
endpoint whose recipient thread is `AnyThread`. -/
theorem inbox_forces_anyThread_witness :
    (((mkBuilder [] (ENamedThread.Named 0)).ReceivingOnThread
        (ENamedThread.Named 5)).WithInbox).InboxEnabled = true ∧
    ∃ e : FSGMessageEndpoint, ∃ bus2 : BusState,
      (((mkBuilder [] (ENamedThread.Named 0)).ReceivingOnThread
          (ENamedThread.Named 5)).WithInbox).Build (some ⟨[], []⟩) 7
        = (some e, some bus2) ∧
      e.RecipientThread = ENamedThread.AnyThread :=
  ⟨rfl,
   inbox_forces_anyThread
     (((mkBuilder [] (ENamedThread.Named 0)).ReceivingOnThread
        (ENamedThread.Named 5)).WithInbox) ⟨[], []⟩ 7 rfl⟩

/-- The engine's repeated-division digit emission agrees with the spec's base-10 digit
expansion for every natural number. -/
theorem natCodes_eq_specNatDecimal (n : Nat) : natCodes n = specNatDecimal n := by
  induction n using Nat.strong_induction_on with
  | _ n ih =>
    by_cases h : n < 10
    · rw [natCodes, dif_pos h]
      by_cases h0 : n = 0
      · subst h0; simp [specNatDecimal]
      · rw [specNatDecimal, if_neg h0,
          Nat.digits_def' (by norm_num : (1 : Nat) < 10) (Nat.pos_of_ne_zero h0),
          Nat.div_eq_of_lt h, Nat.digits_zero]
        simp [Nat.mod_eq_of_lt h]
    · rw [natCodes, dif_neg h, ih (n / 10) (Nat.div_lt_self (by omega) (by omega))]
      have h0 : n ≠ 0 := by omega
      have h10 : n / 10 ≠ 0 := by omega
      simp only [specNatDecimal, if_neg h0, if_neg h10,
        Nat.digits_def' (by norm_num : (1 : Nat) < 10) (Nat.pos_of_ne_zero h0)]
      simp

/-- Every code point emitted by `natCodes` is a decimal digit (between `48` and `57`). -/
theorem natCodes_bound (n : Nat) : ∀ c ∈ natCodes n, 48 ≤ c ∧ c ≤ 57 := by
  induction n using Nat.strong_induction_on with
  | _ n ih =>
    intro c hc
    by_cases h : n < 10
    · rw [natCodes, dif_pos h] at hc
      simp at hc
      omega
    · rw [natCodes, dif_neg h] at hc
      rcases List.mem_append.mp hc with h1 | h1
      · exact ih (n / 10) (Nat.div_lt_self (by omega) (by omega)) c h1
      · have hm : n % 10 < 10 := Nat.mod_lt _ (by omega)
        simp at h1
        omega

/-- `natCodes` never emits the empty list. -/
theorem natCodes_ne_nil (n : Nat) : natCodes n ≠ [] := by
  rw [natCodes]
  by_cases h : n < 10
  · rw [dif_pos h]; simp
  · rw [dif_neg h]; simp

/-- Splitting at the colon recovers the two halves when the left half has no colon. -/
theorem splitAtColon_append (l1 l2 : List Nat) (h : ∀ c ∈ l1, c ≠ 58) :
    splitAtColon (l1 ++ 58 :: l2) = (l1, l2) := by
  induction l1 with
  | nil => simp [splitAtColon]
  | cons c t ih =>
    have hc : c ≠ 58 := h c (List.mem_cons_self _ _)
    simp only [List.cons_append, splitAtColon, if_neg hc, List.append_eq]
    rw [ih (fun x hx => h x (List.mem_cons_of_mem _ hx))]

/-- The most-significant-first digit fold computes `Nat.ofDigits`. -/
theorem foldr_eq_ofDigits (L : List Nat) :
    L.foldr (fun d y => y * 10 + d) 0 = Nat.ofDigits 10 L := by
  induction L with
  | nil => simp
  | cons d t ih => simp [Nat.ofDigits_cons, ih]; ring

/-- Parsing the emitted digits of `n` recovers `n`. -/
theorem parseNatCodes_natCodes (n : Nat) : parseNatCodes (natCodes n) = n := by
  rw [natCodes_eq_specNatDecimal, specNatDecimal]
  by_cases h0 : n = 0
  · subst h0; simp [parseNatCodes]
  · rw [if_neg h0]
    unfold parseNatCodes
    rw [List.foldl_reverse, List.foldr_map]
    simp only [Nat.add_sub_cancel_left]
    rw [foldr_eq_ofDigits, Nat.ofDigits_digits]

/-- Parsing the rendered form of an integer recovers the integer. -/
theorem parseIntCodes_convIntToString (i : Int) :
    parseIntCodes (convIntToString i) = i := by
  unfold convIntToString
  by_cases h : i < 0
  · rw [if_pos h]
    have hcond : (45 :: natCodes i.natAbs).head? = some 45 := rfl
    rw [parseIntCodes, if_pos hcond, List.tail_cons, parseNatCodes_natCodes]
    omega
  · rw [if_neg h]
    obtain ⟨c, cs, hL⟩ : ∃ c cs, natCodes i.toNat = c :: cs := by
      cases hE : natCodes i.toNat with
      | nil => exact absurd hE (natCodes_ne_nil _)
      | cons c cs => exact ⟨c, cs, rfl⟩
    have hc : 48 ≤ c := (natCodes_bound i.toNat c (hL ▸ List.mem_cons_self c cs)).1
    unfold parseIntCodes
    rw [hL, if_neg (by simp; omega)]
    rw [← hL, parseNatCodes_natCodes]
    omega

/-- The rendered form of an integer contains no colon (code point 58). -/
theorem convIntToString_no_colon (i : Int) : ∀ c ∈ convIntToString i, c ≠ 58 := by
  intro c hc
  unfold convIntToString at hc
  by_cases h : i < 0
  · rw [if_pos h] at hc
    rcases List.mem_cons.mp hc with rfl | h1
    · omega
    · have := natCodes_bound _ c h1
      omega
  · rw [if_neg h] at hc
    have := natCodes_bound _ c hc
    omega

/-- Decoding a built tag recovers the topic and message identifiers. -/
theorem decodeTag_builder (t m : Int) :
    decodeTag (FSGMessageTagBuilder.Builder t m) = (t, m) := by
  unfold decodeTag FSGMessageTagBuilder.Builder
  rw [splitAtColon_append _ _ (convIntToString_no_colon t)]
  simp [parseIntCodes_convIntToString]

/-- C6: `FSGMessageTagBuilder::Builder` is injective — distinct topic/message pairs never
collide on the same tag. -/
theorem tagBuilder_injective (t1 m1 t2 m2 : Int) (h : (t1, m1) ≠ (t2, m2)) :
    FSGMessageTagBuilder.Builder t1 m1 ≠ FSGMessageTagBuilder.Builder t2 m2 := by
  intro hEq
  apply h
  have h2 := congrArg decodeTag hEq
  rwa [decodeTag_builder, decodeTag_builder] at h2

/-- Witness for C6: the distinct pairs `(1, 2)` and `(3, 4)` produce distinct tags. -/
theorem tagBuilder_injective_witness :
    ((1 : Int), (2 : Int)) ≠ ((3 : Int), (4 : Int)) ∧
    FSGMessageTagBuilder.Builder 1 2 ≠ FSGMessageTagBuilder.Builder 3 4 :=
  ⟨by decide, tagBuilder_injective 1 2 3 4 (by decide)⟩

/-- C7: for every topic and message identifier, `FSGMessageTagBuilder::Builder` returns
exactly the spec's canonical string form: the decimal rendering of the topic, a colon,
then the decimal rendering of the message. -/
theorem tagBuilder_canonical_decimal_form (t m : Int) :
    FSGMessageTagBuilder.Builder t m = specCanonicalTag t m := by
  unfold FSGMessageTagBuilder.Builder specCanonicalTag convIntToString specIntDecimal
  by_cases h1 : t < 0 <;> by_cases h2 : m < 0 <;>
    simp [h1, h2, natCodes_eq_specNatDecimal]
